import Mathlib

/-!
Verification of the agent communication protocol layer of ModsBeforeFriday
(src/mbf-site/src/Agent.ts), shallowly embedded in Lean.

Text already decoded from the stdout byte stream is modelled as `List Char`;
the framing loop, the log/response demultiplexer and the session resolution
of `sendRequest` are embedded as executable functions, as are the action
traces of `prepareAgent`, the retry loop of `downloadAgent`, the upload
timeout race of `saveAgent` and the result construction of `patchApp`.
-/

namespace MBF

/-- Log levels carried by a LogMsg response (`level` field, Messages.ts). -/
inductive Level where
  | Trace
  | Debug
  | Info
  | Warn
  | Error
  deriving DecidableEq, Repr

/-- A decoded agent message: either a LogMsg (`type === "LogMsg"`) or any other
response, which `sendRequest` treats as the terminal result.  Payloads of
non-log responses are abstracted to their JSON text, since `sendRequest`
inspects nothing but the `type` discriminant and the log `level`/`message`. -/
inductive Response where
  | logMsg (level : Level) (message : String)
  | terminal (payload : String)
  deriving DecidableEq, Repr

/-! ## Framed channel codec (Agent.ts lines 199-213)

The loop keeps `buffer`, appends each received chunk, splits on `"\n"`, treats
every segment but the last as a complete frame and keeps the last segment as
the new buffer.  `splitFrames s` returns exactly that pair
(complete frames of `s`, trailing partial segment), matching the JS
`s.split("\n")` with its last element removed and kept respectively. -/

/-- Splits a character list at every newline: first component is the list of
complete (newline-terminated) frames, second is the trailing text after the
last newline (the retained buffer).  Mirrors `buffer.split("\n")` followed by
taking all segments but the last as frames and the last as the new buffer. -/
def splitFrames : List Char → List (List Char) × List Char
  | [] => ([], [])
  | c :: cs =>
    if c = '\n' then
      ([] :: (splitFrames cs).1, (splitFrames cs).2)
    else
      match (splitFrames cs).1 with
      | [] => ([], c :: (splitFrames cs).2)
      | f :: fs => ((c :: f) :: fs, (splitFrames cs).2)

/-- One iteration of the read loop on a received chunk: append the chunk to
the buffer, emit the complete frames, retain the trailing segment
(Agent.ts lines 210-212). -/
def codecStep (st : List (List Char) × List Char) (chunk : List Char) :
    List (List Char) × List Char :=
  ((st.1 ++ (splitFrames (st.2 ++ chunk)).1), (splitFrames (st.2 ++ chunk)).2)

/-- Runs the framing loop over a whole sequence of received chunks, starting
from the empty buffer, collecting frames in arrival order. -/
def processChunks (chunks : List (List Char)) : List (List Char) × List Char :=
  chunks.foldl codecStep ([], [])

/-- Splitting a concatenation: the frames of `x ++ y` are the frames of `x`
followed by the frames of the retained buffer of `x` prepended to `y`. -/
theorem splitFrames_append (x y : List Char) :
    splitFrames (x ++ y) =
      ((splitFrames x).1 ++ (splitFrames ((splitFrames x).2 ++ y)).1,
       (splitFrames ((splitFrames x).2 ++ y)).2) := by
  induction x with
  | nil => simp [splitFrames]
  | cons c cs ih =>
    by_cases hc : c = '\n'
    · subst hc
      simp [splitFrames, ih]
    · cases h1 : (splitFrames cs).1 with
      | nil =>
        cases h2 : (splitFrames ((splitFrames cs).2 ++ y)).1 with
        | nil => simp [splitFrames, if_neg hc, ih, h1, h2]
        | cons b bs => simp [splitFrames, if_neg hc, ih, h1, h2]
      | cons f fs =>
        simp [splitFrames, if_neg hc, ih, h1]

/-- The framing loop is a homomorphism: feeding any chunk sequence gives the
same frames and buffer as feeding the whole concatenation at once. -/
theorem processChunks_eq_join (chunks : List (List Char)) :
    processChunks chunks = splitFrames chunks.flatten := by
  induction chunks using List.reverseRecOn with
  | nil => simp [processChunks, splitFrames]
  | append_singleton cs c ih =>
    have h1 : processChunks (cs ++ [c]) = codecStep (processChunks cs) c :=
      List.foldl_concat _ _ _ _
    have h2 : (cs ++ [c]).flatten = cs.flatten ++ c := by simp
    rw [h1, ih, h2, splitFrames_append cs.flatten c]
    simp [codecStep]

/-- C1: the framing loop in sendRequest is chunk-boundary invariant: two chunk
sequences with the same concatenation (boundaries anywhere, zero-length chunks
allowed) produce the same frame sequence and the same retained buffer, hence
the same sequence of parsed messages; no data is lost or reordered. -/
theorem codec_chunk_invariance (cs1 cs2 : List (List Char))
    (h : cs1.flatten = cs2.flatten) :
    processChunks cs1 = processChunks cs2 := by
  rw [processChunks_eq_join, processChunks_eq_join, h]

/-- Witness for C1 at concrete chunkings of the text "ab\nc", one of them
containing a zero-length chunk and a boundary inside a frame. -/
theorem codec_chunk_invariance_witness :
    ([['a'], [], ['b', '\n', 'c']] : List (List Char)).flatten =
        ([['a', 'b', '\n'], ['c']] : List (List Char)).flatten ∧
      processChunks [['a'], [], ['b', '\n', 'c']] =
        processChunks [['a', 'b', '\n'], ['c']] :=
  ⟨by decide, codec_chunk_invariance _ _ (by decide)⟩

/-! ## Log/response demultiplexer (Agent.ts lines 222-238)

State is the latched `response` variable (initially `null`) together with the
list of LogMsg events delivered to the event sink so far.  The sink is
modelled by its presence (`eventSink != null`): when present it receives
every LogMsg in order; a LogMsg whose level is Error is latched, and any
non-log message is latched unconditionally. -/

/-- One step of the demultiplexer for a single parsed message (the body of the
frame loop after JSON parsing succeeded). -/
def demuxStep (sinkPresent : Bool) (st : Option Response × List (Level × String)) :
    Response → Option Response × List (Level × String)
  | Response.logMsg lvl m =>
    if lvl = Level.Error then
      (some (Response.logMsg lvl m), if sinkPresent then st.2 ++ [(lvl, m)] else st.2)
    else
      (st.1, if sinkPresent then st.2 ++ [(lvl, m)] else st.2)
  | Response.terminal d => (some (Response.terminal d), st.2)

/-- Runs the demultiplexer over a parsed message sequence from the initial
state (`response = null`, nothing delivered to the sink). -/
def demuxRun (sinkPresent : Bool) (msgs : List Response) :
    Option Response × List (Level × String) :=
  msgs.foldl (demuxStep sinkPresent) (none, [])

/-- C2: after demultiplexing any number of LogEvents followed by one terminal
(non-LogMsg) message, the latched value is that terminal message: a terminal
message always overwrites the latched value, even when an Error-level log was
latched earlier. -/
theorem demux_terminal_always_latched (sinkPresent : Bool)
    (logs : List (Level × String)) (d : String) :
    (demuxRun sinkPresent
        (logs.map (fun p => Response.logMsg p.1 p.2) ++ [Response.terminal d])).1
      = some (Response.terminal d) := by
  simp [demuxRun, List.foldl_append, demuxStep]

/-! ## Frame loop with JSON parsing (Agent.ts lines 214-238)

`JSON.parse` together with the cast to `Response` is an external collaborator
and is passed in as a function `parse`; a frame on which it throws is
modelled by `none`.  The loop aborts at the first unparsable frame, throwing
an error that quotes the offending frame text; the state records the
side effects (latched value, sink deliveries) up to that point. -/

/-- Processes the complete frames of the read loop in order: parse each frame,
abort with the literal offending text if parsing fails, otherwise feed the
message to the demultiplexer. -/
def processFrames (parse : List Char → Option Response) (sinkPresent : Bool)
    (st : Option Response × List (Level × String)) :
    List (List Char) → Except String Unit × (Option Response × List (Level × String))
  | [] => (Except.ok (), st)
  | f :: fs =>
    match parse f with
    | none =>
      (Except.error ("Agent message " ++ String.mk f ++ " was not valid JSON"), st)
    | some msg => processFrames parse sinkPresent (demuxStep sinkPresent st msg) fs

/-- C5: a complete frame that is not valid JSON is fatal: whenever every frame
before `f` parses and `f` does not, the frame loop aborts with an error
quoting the offending frame text verbatim, and the outcome is the same
whatever frames follow `f` (none of them is processed). -/
theorem invalid_json_frame_fatal (parse : List Char → Option Response)
    (sinkPresent : Bool) (st : Option Response × List (Level × String))
    (pre : List (List Char)) (f : List Char) (post : List (List Char))
    (hpre : ∀ g ∈ pre, (parse g).isSome)
    (hf : parse f = none) :
    (processFrames parse sinkPresent st (pre ++ f :: post)).1 =
      Except.error ("Agent message " ++ String.mk f ++ " was not valid JSON") := by
  induction pre generalizing st with
  | nil => simp [processFrames, hf]
  | cons g gs ih =>
    obtain ⟨m, hm⟩ := Option.isSome_iff_exists.mp (hpre g (by simp))
    simp only [List.cons_append, processFrames, hm]
    exact ih _ (fun a ha => hpre a (by simp [ha]))

/-- Witness for C5: a parsable frame, then an unparsable frame, then a further
frame that is ignored. -/
theorem invalid_json_frame_fatal_witness :
    (processFrames
        (fun f => if f = ['L'] then some (Response.logMsg Level.Info "checking")
          else none)
        true (none, []) ([['L']] ++ ['X'] :: [['L']])).1 =
      Except.error ("Agent message " ++ String.mk ['X'] ++ " was not valid JSON") :=
  invalid_json_frame_fatal _ true (none, []) [['L']] ['X'] [['L']]
    (by decide) (by decide)

/-! ## Session resolution (Agent.ts lines 242-258)

After the read loop ends, `sendRequest` inspects the exit code and the latched
value.  The four distinct continuations of the source are modelled by the
four constructors below, each carrying the data of the corresponding
`return`/`throw`: `success` is the normal return; `noResponse` and `errorLog`
are the two thrown errors of the exit-code-zero branch; `invocationFailed` is
the thrown error of the non-zero branch, whose text ends with the fully
decoded stderr stream. -/

/-- The resolution of a session: the returned response or the thrown error. -/
inductive Outcome where
  | success (r : Response)
  | noResponse (text : String)
  | errorLog (message : String)
  | invocationFailed (text : String)
  deriving DecidableEq, Repr

/-- Resolves the session from the exit code, the latched value and the decoded
stderr text (Agent.ts lines 242-258). -/
def resolve (exitCode : Nat) (latched : Option Response) (stderrText : String) :
    Outcome :=
  if exitCode = 0 then
    match latched with
    | none => Outcome.noResponse "Received error response from agent"
    | some (Response.logMsg _ m) => Outcome.errorLog m
    | some (Response.terminal d) => Outcome.success (Response.terminal d)
  else
    Outcome.invocationFailed
      ("Failed to invoke agent: is the executable corrupt?" ++ stderrText)

/-- The whole observable behaviour of one `sendRequest` session, given the
parse function, the sink presence, the received stdout chunks, the exit code
and the decoded stderr text: either the mid-loop JSON error or the resolved
outcome, together with the events delivered to the sink. -/
def sendRequestRun (parse : List Char → Option Response) (sinkPresent : Bool)
    (chunks : List (List Char)) (exitCode : Nat) (stderr : String) :
    Except String Outcome × List (Level × String) :=
  match processFrames parse sinkPresent (none, []) (processChunks chunks).1 with
  | (Except.error e, st) => (Except.error e, st.2)
  | (Except.ok _, st) => (Except.ok (resolve exitCode st.1 stderr), st.2)

/-- C3: on exit code 0 the session resolves by the latched value: a latched
terminal message is returned as the success result; a latched Error-level
LogMsg fails the session carrying that log message as the reason; an empty
latch fails the session with the no-response error. -/
theorem sendRequest_exit_zero (parse : List Char → Option Response)
    (sinkPresent : Bool) (chunks : List (List Char)) (stderr : String)
    (st : Option Response × List (Level × String))
    (h : processFrames parse sinkPresent (none, []) (processChunks chunks).1 =
      (Except.ok (), st)) :
    (∀ d, st.1 = some (Response.terminal d) →
        (sendRequestRun parse sinkPresent chunks 0 stderr).1 =
          Except.ok (Outcome.success (Response.terminal d))) ∧
      (∀ lvl m, st.1 = some (Response.logMsg lvl m) →
        (sendRequestRun parse sinkPresent chunks 0 stderr).1 =
          Except.ok (Outcome.errorLog m)) ∧
      (st.1 = none →
        (sendRequestRun parse sinkPresent chunks 0 stderr).1 =
          Except.ok (Outcome.noResponse "Received error response from agent")) := by
  refine ⟨fun d hd => ?_, fun lvl m hm => ?_, fun hn => ?_⟩
  · simp [sendRequestRun, h, resolve, hd]
  · simp [sendRequestRun, h, resolve, hm]
  · simp [sendRequestRun, h, resolve, hn]

/-- A parse function for concrete witnesses: the frame "L" is an Error-level
log, the frame "T" is a terminal response, anything else fails to parse. -/
def parseW : List Char → Option Response := fun f =>
  if f = ['L'] then some (Response.logMsg Level.Error "boom")
  else if f = ['T'] then some (Response.terminal "T")
  else none

/-- Witness for C3: an Error-level log then a terminal response, exit code 0;
the terminal response is returned. -/
theorem sendRequest_exit_zero_witness :
    (sendRequestRun parseW false [['L', '\n', 'T', '\n']] 0 "").1 =
      Except.ok (Outcome.success (Response.terminal "T")) :=
  (sendRequest_exit_zero parseW false [['L', '\n', 'T', '\n']] ""
    (some (Response.terminal "T"), []) rfl).1 "T" rfl

/-- C4: on a non-zero exit code the session always fails with the invocation
error regardless of the latched value (a latched terminal result included),
and the error text ends with the fully decoded stderr contents. -/
theorem sendRequest_exit_nonzero (parse : List Char → Option Response)
    (sinkPresent : Bool) (chunks : List (List Char)) (exitCode : Nat)
    (stderr : String) (st : Option Response × List (Level × String))
    (hc : exitCode ≠ 0)
    (h : processFrames parse sinkPresent (none, []) (processChunks chunks).1 =
      (Except.ok (), st)) :
    (sendRequestRun parse sinkPresent chunks exitCode stderr).1 =
      Except.ok (Outcome.invocationFailed
        ("Failed to invoke agent: is the executable corrupt?" ++ stderr)) := by
  simp [sendRequestRun, h, resolve, hc]

/-- Witness for C4: a terminal response was latched but the exit code is 1;
the latched value is discarded and the stderr text is carried in the error. -/
theorem sendRequest_exit_nonzero_witness :
    (sendRequestRun parseW false [['T', '\n']] 1 "boom from stderr").1 =
      Except.ok (Outcome.invocationFailed
        ("Failed to invoke agent: is the executable corrupt?" ++
          "boom from stderr")) :=
  sendRequest_exit_nonzero parseW false [['T', '\n']] 1 "boom from stderr"
    (some (Response.terminal "T"), []) (by decide) rfl

/-! ## Sink non-interference (C9) -/

/-- The latched value after one demultiplexer step is independent of the sink:
if two states agree on the latched value, so do their successors, whatever
the two sink presences are. -/
theorem demuxStep_latched_congr (s1 s2 : Bool)
    (st1 st2 : Option Response × List (Level × String)) (h : st1.1 = st2.1)
    (msg : Response) : (demuxStep s1 st1 msg).1 = (demuxStep s2 st2 msg).1 := by
  cases msg with
  | logMsg lvl m => by_cases hl : lvl = Level.Error <;> simp [demuxStep, hl, h]
  | terminal d => simp [demuxStep]

/-- The frame loop is sink-agnostic up to the delivered events: from states
agreeing on the latched value, and for any two sink presences, it produces the
same error-or-ok result and the same final latched value. -/
theorem processFrames_sink_agnostic (parse : List Char → Option Response)
    (fs : List (List Char)) :
    ∀ (s1 s2 : Bool) (st1 st2 : Option Response × List (Level × String)),
      st1.1 = st2.1 →
        (processFrames parse s1 st1 fs).1 = (processFrames parse s2 st2 fs).1 ∧
          (processFrames parse s1 st1 fs).2.1 =
            (processFrames parse s2 st2 fs).2.1 := by
  induction fs with
  | nil => intro s1 s2 st1 st2 h; simp [processFrames, h]
  | cons f fs ih =>
    intro s1 s2 st1 st2 h
    cases hp : parse f with
    | none => simp [processFrames, hp, h]
    | some msg =>
      simp only [processFrames, hp]
      exact ih s1 s2 _ _ (demuxStep_latched_congr s1 s2 st1 st2 h msg)

/-- With no sink present, a demultiplexer step delivers nothing. -/
theorem demuxStep_no_sink (st : Option Response × List (Level × String))
    (msg : Response) : (demuxStep false st msg).2 = st.2 := by
  cases msg with
  | logMsg lvl m => by_cases hl : lvl = Level.Error <;> simp [demuxStep, hl]
  | terminal d => simp [demuxStep]

/-- With no sink present, the frame loop delivers no events at all. -/
theorem processFrames_no_sink (parse : List Char → Option Response)
    (fs : List (List Char)) :
    ∀ st, (processFrames parse false st fs).2.2 = st.2 := by
  induction fs with
  | nil => intro st; simp [processFrames]
  | cons f fs ih =>
    intro st
    cases hp : parse f with
    | none => simp [processFrames, hp]
    | some msg =>
      simp only [processFrames, hp]
      rw [ih, demuxStep_no_sink]

/-- C9: the event sink does not interfere with the protocol: for every parse
function, chunk sequence, exit code and stderr text, the session with a sink
present and the session with a null sink produce the same error-or-outcome,
and the null-sink session delivers no LogEvent notifications at all. -/
theorem sink_noninterference (parse : List Char → Option Response)
    (chunks : List (List Char)) (exitCode : Nat) (stderr : String) :
    (sendRequestRun parse true chunks exitCode stderr).1 =
        (sendRequestRun parse false chunks exitCode stderr).1 ∧
      (sendRequestRun parse false chunks exitCode stderr).2 = [] := by
  obtain ⟨h1, h2⟩ := processFrames_sink_agnostic parse (processChunks chunks).1
    true false (none, []) (none, []) rfl
  have h3 := processFrames_no_sink parse (processChunks chunks).1 (none, [])
  constructor
  · unfold sendRequestRun
    cases hA : processFrames parse true (none, []) (processChunks chunks).1 with
    | mk eA stA =>
      cases hB : processFrames parse false (none, []) (processChunks chunks).1 with
      | mk eB stB =>
        rw [hA, hB] at h1 h2
        simp only at h1 h2
        subst h1
        cases eA <;> simp [h2]
  · unfold sendRequestRun
    cases hB : processFrames parse false (none, []) (processChunks chunks).1 with
    | mk eB stB =>
      rw [hB] at h3
      simp only at h3
      cases eB <;> simpa using h3

/-! ## Agent provisioning (Agent.ts lines 32-93)

`prepareAgent` runs the remote hash command, trims and uppercases its stdout,
compares it (after a redundant second trim and uppercase) against the
build-time constant `AGENT_SHA1`, and only on a mismatch runs
`overwriteAgent` (remove, download, write, chmod).  The remote side effects
are modelled as an action trace.  The transport result of the hash command is
the `remoteOut` parameter; the download transport is the `fetch` parameter
(attempt number to payload, `none` on a network or status failure).

Modelled from the spec: the constant `AGENT_SHA1` lives in agent_manifest.ts,
which is not part of the sources; per the spec it is a build-time-known
content hash string against which the remote hash is compared
case-insensitively, so theorems take it as a parameter that is
case-normalized (uppercasing it and trimming it change nothing). -/

/-- JS `String.prototype.trim` on the character lists of our strings:
whitespace removed from both ends. -/
def jsTrim (s : String) : String :=
  String.mk (((s.data.dropWhile Char.isWhitespace).reverse.dropWhile
    Char.isWhitespace).reverse)

/-- JS `String.prototype.toUpperCase` restricted to ASCII, which covers the
hex hash strings compared here. -/
def jsToUpperCase (s : String) : String :=
  String.mk (s.data.map Char.toUpper)

/-- A remote side effect issued over the ADB transport. -/
inductive AdbAction where
  | spawnAndWait (cmd : String)
  | fetchAgent
  | syncWrite (path : String)
  deriving DecidableEq, Repr

/-- The remote path of the agent executable (Agent.ts line 8). -/
def AgentPath : String := "/data/local/tmp/mbf-agent"

/-- The remote command computing the installed agent hash (Agent.ts line 38). -/
def sha1Command : String := "sha1sum " ++ AgentPath ++ " | cut -f 1 -d \" \""

/-- The retry bound of the resilient fetcher (Agent.ts line 96). -/
def MAX_ATTEMPTS : Nat := 3

/-- The error thrown after the retries are exhausted (Agent.ts line 154). -/
def downloadFailText : String :=
  "Failed to fetch agent after multiple attempts.\nDid you lose internet connection just after you loaded the site?\n\nIf not, then please report this issue, including a screenshot of the browser console window!"

/-- The do-while retry loop of `downloadAgent` (Agent.ts lines 99-154): the
body runs at attempt numbers 1, 2, ... while attempts remain; a successful
transfer returns its payload immediately, exhaustion throws the connectivity
error.  Returns the result together with the number of attempts performed.
The second argument is the attempt counter, the third the number of attempts
still allowed. -/
def downloadLoop (fetch : Nat → Option (List Nat)) (attempt : Nat) :
    Nat → Except String (List Nat) × Nat
  | 0 => (Except.error downloadFailText, 0)
  | r + 1 =>
    match fetch attempt with
    | some p => (Except.ok p, 1)
    | none =>
      ((downloadLoop fetch (attempt + 1) r).1,
        (downloadLoop fetch (attempt + 1) r).2 + 1)

/-- `downloadAgent` as a whole: the retry loop started at attempt 1 with
`MAX_ATTEMPTS` attempts allowed. -/
def downloadAgentRun (fetch : Nat → Option (List Nat)) :
    Except String (List Nat) × Nat :=
  downloadLoop fetch 1 MAX_ATTEMPTS

/-- The remote actions of `overwriteAgent` (Agent.ts lines 52-68): remove the
old binary, fetch the new one (one `fetchAgent` action per attempt), and on a
successful download write it and make it executable; a failed download
propagates before the write and chmod are reached. -/
def overwriteAgentActions (fetch : Nat → Option (List Nat)) : List AdbAction :=
  AdbAction.spawnAndWait ("rm " ++ AgentPath) ::
    (match downloadAgentRun fetch with
     | (Except.ok _, n) =>
       List.replicate n AdbAction.fetchAgent ++
         [AdbAction.syncWrite AgentPath,
           AdbAction.spawnAndWait ("chmod +x " ++ AgentPath)]
     | (Except.error _, n) => List.replicate n AdbAction.fetchAgent)

/-- The up-to-date test of `prepareAgent` (Agent.ts lines 38-42): trim and
uppercase the hash command stdout, then compare the constant against that
string trimmed and uppercased once more. -/
def prepareAgentUpToDate (agentSha1 remoteOut : String) : Bool :=
  agentSha1 == jsToUpperCase (jsTrim (jsToUpperCase (jsTrim remoteOut)))

/-- The remote actions of `prepareAgent` (Agent.ts lines 32-50): the hash
command always runs; the overwrite sequence runs only when the hashes
differ. -/
def prepareAgentActions (agentSha1 remoteOut : String)
    (fetch : Nat → Option (List Nat)) : List AdbAction :=
  if prepareAgentUpToDate agentSha1 remoteOut then
    [AdbAction.spawnAndWait sha1Command]
  else
    AdbAction.spawnAndWait sha1Command :: overwriteAgentActions fetch

/-- C6: `prepareAgent` is idempotent on an up-to-date device: when the remote
hash equals the expected hash case-insensitively (equal after uppercasing),
and the expected hash constant is case-normalized (uppercase, no surrounding
whitespace), the only remote action issued is the hash command itself: no
remove, fetch, write or chmod. -/
theorem prepareAgent_idempotent (agentSha1 remoteOut : String)
    (fetch : Nat → Option (List Nat))
    (hci : jsToUpperCase (jsTrim remoteOut) = jsToUpperCase agentSha1)
    (hnorm : jsToUpperCase agentSha1 = agentSha1)
    (htrim : jsTrim agentSha1 = agentSha1) :
    prepareAgentActions agentSha1 remoteOut fetch =
      [AdbAction.spawnAndWait sha1Command] := by
  have hup : prepareAgentUpToDate agentSha1 remoteOut = true := by
    unfold prepareAgentUpToDate
    rw [hci, hnorm, htrim, hnorm]
    exact beq_self_eq_true agentSha1
  simp [prepareAgentActions, hup]

/-- Witness for C6: remote stdout differing from the expected hash only by
case and surrounding whitespace; the only action is the hash command. -/
theorem prepareAgent_idempotent_witness :
    prepareAgentActions "AB12CD" " ab12cd\n" (fun _ => none) =
      [AdbAction.spawnAndWait sha1Command] :=
  prepareAgent_idempotent "AB12CD" " ab12cd\n" (fun _ => none)
    (by decide) (by decide) (by decide)

/-- C7: the resilient fetcher makes at most `MAX_ATTEMPTS = 3` attempts: if
the transport fails on attempts 1 and 2 and succeeds on attempt 3, the fetch
performs exactly 3 attempts and returns the successful payload; if the
transport always fails, it performs exactly 3 attempts and throws the
connectivity error. -/
theorem downloadAgent_retries (fetch : Nat → Option (List Nat)) (p : List Nat) :
    (fetch 1 = none → fetch 2 = none → fetch 3 = some p →
        downloadAgentRun fetch = (Except.ok p, 3)) ∧
      ((∀ n, fetch n = none) →
        downloadAgentRun fetch = (Except.error downloadFailText, 3)) := by
  constructor
  · intro h1 h2 h3
    simp [downloadAgentRun, MAX_ATTEMPTS, downloadLoop, h1, h2, h3]
  · intro h
    simp [downloadAgentRun, MAX_ATTEMPTS, downloadLoop, h]

/-- Witness for C7: a transport failing twice then succeeding; the payload is
returned after exactly 3 attempts. -/
theorem downloadAgent_retries_witness :
    downloadAgentRun (fun n => if n = 3 then some [7] else none) =
      (Except.ok [7], 3) :=
  (downloadAgent_retries (fun n => if n = 3 then some [7] else none) [7]).1
    rfl rfl rfl

/-! ## Upload timeout race (Agent.ts lines 70-93)

`saveAgent` races `sync.write` against a `setTimeout` rejection firing after
`AGENT_UPLOAD_TIMEOUT` seconds.  The race is embedded with the upload
completion time (in seconds) as an explicit parameter: the write settles the
race when it completes strictly before the timeout fires, the timeout
rejection settles it otherwise. -/

/-- The upload timeout in seconds (Agent.ts line 72). -/
def AGENT_UPLOAD_TIMEOUT : Nat := 30

/-- The rejection text of the timeout promise (Agent.ts lines 86-89), with the
timeout constant interpolated. -/
def uploadTimeoutText : String :=
  "Did not finish pushing agent after 30 seconds.\n" ++
    "In practice, pushing the agent takes less than a second, so this is a bug. Please report this issue including information about " ++
    "which web browser you are using."

/-- The race between the upload and the timeout promise (Agent.ts line 92). -/
def saveAgentRace (uploadSeconds : Nat) : Except String Unit :=
  if uploadSeconds < AGENT_UPLOAD_TIMEOUT then Except.ok ()
  else Except.error uploadTimeoutText

/-- C8: an upload whose write has not completed when the 30-second timeout
fires makes `saveAgent` fail, with an error whose text starts with the
"Did not finish pushing agent" flag (the message goes on to say that this is
a bug rather than a transient failure), and no success is reported; an upload
completing within the timeout returns normally. -/
theorem saveAgent_timeout_behaviour (t : Nat) :
    (AGENT_UPLOAD_TIMEOUT ≤ t →
        ∃ rest, saveAgentRace t =
          Except.error ("Did not finish pushing agent" ++ rest)) ∧
      (t < AGENT_UPLOAD_TIMEOUT → saveAgentRace t = Except.ok ()) := by
  constructor
  · intro h
    refine ⟨" after 30 seconds.\n" ++
      "In practice, pushing the agent takes less than a second, so this is a bug. Please report this issue including information about " ++
      "which web browser you are using.", ?_⟩
    rw [saveAgentRace, if_neg (by omega)]
    rfl
  · intro h
    rw [saveAgentRace, if_pos h]

/-- Witness for C8: a 31-second upload against the 30-second timeout fails
with the flagged message. -/
theorem saveAgent_timeout_behaviour_witness :
    ∃ rest, saveAgentRace 31 =
      Except.error ("Did not finish pushing agent" ++ rest) :=
  (saveAgent_timeout_behaviour 31).1 (by decide)

/-! ## patchApp result construction (Agent.ts lines 348-388)

After a successful Patch request, `patchApp` does not return the agent
response itself: it builds a fresh ModStatus locally, copying only
`installed_mods` from the agent Patched payload.  The record shapes below
follow the fields that `patchApp` reads and writes (Messages.ts itself is an
external type catalogue per the spec).  The non-null assertions
`beforePatch.app_info!` and `beforePatch.core_mods!` are modelled by `Option`
fields, a missing one yielding `none` (the runtime crash); the JS `??` on the
downgrade version short-circuits, so `app_info` is only consulted when no
downgrade version is given. -/

/-- An installed mod; its internals are irrelevant to `patchApp`. -/
structure Mod where
  id : String
  deriving DecidableEq, Repr

/-- The `app_info` field of a ModStatus as `patchApp` uses it. -/
structure AppInfo where
  loader_installed : Option String
  version : String
  manifest_xml : String
  deriving DecidableEq, Repr

/-- The `core_mods` field of a ModStatus as `patchApp` uses it. -/
structure CoreMods where
  all_core_mods_installed : Bool
  supported_versions : List String
  downgrade_versions : List String
  deriving DecidableEq, Repr

/-- The ModStatus record returned by `patchApp`. -/
structure ModStatus where
  app_info : Option AppInfo
  core_mods : Option CoreMods
  modloader_present : Bool
  installed_mods : List Mod
  deriving DecidableEq, Repr

/-- The Patched response of the agent; `patchApp` reads `installed_mods` for
the result and `did_remove_dlc` only for a warning toast. -/
structure Patched where
  installed_mods : List Mod
  did_remove_dlc : Bool
  deriving DecidableEq, Repr

/-- The ModStatus that `patchApp` returns (Agent.ts lines 373-387), built
from the prior status, the requested downgrade version, the manifest, and the
agent Patched response. -/
def patchAppResult (beforePatch : ModStatus) (downgradeToVersion : Option String)
    (manifestMod : String) (response : Patched) : Option ModStatus :=
  match (match downgradeToVersion with
         | some v => some v
         | none => Option.map AppInfo.version beforePatch.app_info),
      beforePatch.core_mods with
  | some v, some cm =>
    some ⟨some ⟨some "Scotland2", v, manifestMod⟩,
      some ⟨true, cm.supported_versions, []⟩,
      true,
      response.installed_mods⟩
  | _, _ => none

/-- C10: the ModStatus returned by a successful `patchApp` is constructed
locally: `loader_installed` is always "Scotland2", the version is the
downgrade version when given and the prior version otherwise,
`all_core_mods_installed` is always true, `downgrade_versions` is always
empty, `modloader_present` is always true, `supported_versions` and the
manifest come from the inputs, and only `installed_mods` is copied from the
agent Patched response. -/
theorem patchApp_builds_status_locally (beforePatch : ModStatus)
    (downgradeToVersion : Option String) (manifestMod : String)
    (response : Patched) (ai : AppInfo) (cm : CoreMods)
    (hai : beforePatch.app_info = some ai)
    (hcm : beforePatch.core_mods = some cm) :
    patchAppResult beforePatch downgradeToVersion manifestMod response =
      some ⟨some ⟨some "Scotland2", downgradeToVersion.getD ai.version,
          manifestMod⟩,
        some ⟨true, cm.supported_versions, []⟩,
        true,
        response.installed_mods⟩ := by
  cases downgradeToVersion with
  | none => simp [patchAppResult, hai, hcm]
  | some v => simp [patchAppResult, hai, hcm]

/-- Witness for C10 at a concrete prior status with no downgrade version. -/
theorem patchApp_builds_status_locally_witness :
    patchAppResult
        ⟨some ⟨none, "1.16.4", "oldmanifest"⟩,
          some ⟨false, ["1.16.4"], ["1.13.2"]⟩, false, []⟩
        none "newmanifest" ⟨[⟨"core-mod-a"⟩], true⟩ =
      some ⟨some ⟨some "Scotland2", "1.16.4", "newmanifest"⟩,
        some ⟨true, ["1.16.4"], []⟩,
        true,
        [⟨"core-mod-a"⟩]⟩ :=
  patchApp_builds_status_locally
    ⟨some ⟨none, "1.16.4", "oldmanifest"⟩,
      some ⟨false, ["1.16.4"], ["1.13.2"]⟩, false, []⟩
    none "newmanifest" ⟨[⟨"core-mod-a"⟩], true⟩
    ⟨none, "1.16.4", "oldmanifest"⟩ ⟨false, ["1.16.4"], ["1.13.2"]⟩ rfl rfl

end MBF
